import Mathlib

/-!
Shallow embedding of the agentsmithy agent template:
tool registry (app/orchestration/tools.py), retriever adapter
(app/rag/retriever.py), and the agent managers with their streaming
normalization (app/orchestration/agent.py).
-/

/-- Python exception values that appear in `agent.py` and in the streaming
boundary: google NotFound, RuntimeError (every RuntimeError raised in this
code uses raise-from, so it always carries its chained cause), IndexError
from list indexing, and a generic Exception. -/
inductive PyError where
  | notFound (msg : String)
  | runtimeError (msg : String) (cause : PyError)
  | indexError (msg : String)
  | exn (msg : String)
deriving DecidableEq, Repr

/-- Python str(e): the message carried by the exception. -/
def PyError.pyStr : PyError → String
  | .notFound m => m
  | .runtimeError m _ => m
  | .indexError m => m
  | .exn m => m

/-- The tool objects assembled by get_tools in
app/orchestration/tools.py (one constructor per distinct tool object). -/
inductive Tool where
  | yahoo_finance_news_tool
  | medical_publications_tool
  | google_search_tool
  | google_scholar_tool
  | google_trends_tool
  | google_finance_tool
  | retrieve_info_tool
  | fallback
  | should_continue
deriving DecidableEq, Repr

/-- Modelled from the spec: the string values of the IndustryType enum in
app/orchestration/enums.py, which is not part of the extracted sources; the
spec enumerates the selectors as finance, healthcare and retail (reserved). -/
def IndustryType.FINANCE_INDUSTRY : String := "finance"

/-- Modelled from the spec: the healthcare selector value of the
IndustryType enum (see IndustryType.FINANCE_INDUSTRY). -/
def IndustryType.HEALTHCARE_INDUSTRY : String := "healthcare"

/-- Modelled from the spec: the reserved retail selector value of the
IndustryType enum (see IndustryType.FINANCE_INDUSTRY). -/
def IndustryType.RETAIL_INDUSTRY : String := "retail"

/-- The environment-derived configuration read at the top of tools.py:
SERP_API_KEY = os.environ.get("SERPER_API_KEY", "unset") and
DATA_STORE_ID = os.getenv("DATA_STORE_ID", "unset"). -/
structure ToolEnv where
  SERP_API_KEY : String
  DATA_STORE_ID : String
deriving DecidableEq, Repr

/-- get_tools(industry_type: str = None) from tools.py: start from an empty
list, append an industry tool on exact selector match (the retail branch is
commented out in the source), extend with the four Serper-backed web tools
when SERP_API_KEY is not the sentinel "unset", append retrieve_info when
DATA_STORE_ID is not "unset", then always extend with fallback and
should_continue. -/
def get_tools (env : ToolEnv) (industry_type : Option String) : List Tool :=
  let tools_list : List Tool :=
    if industry_type = some IndustryType.FINANCE_INDUSTRY then
      [Tool.yahoo_finance_news_tool]
    else if industry_type = some IndustryType.HEALTHCARE_INDUSTRY then
      [Tool.medical_publications_tool]
    else
      []
  let tools_list :=
    if env.SERP_API_KEY ≠ "unset" then
      tools_list ++ [Tool.google_search_tool, Tool.google_scholar_tool,
        Tool.google_trends_tool, Tool.google_finance_tool]
    else
      tools_list
  let tools_list :=
    if env.DATA_STORE_ID ≠ "unset" then
      tools_list ++ [Tool.retrieve_info_tool]
    else
      tools_list
  tools_list ++ [Tool.fallback, Tool.should_continue]

/-- The industry-selected block of get_tools, in isolation. -/
def industryPart (industry_type : Option String) : List Tool :=
  if industry_type = some IndustryType.FINANCE_INDUSTRY then
    [Tool.yahoo_finance_news_tool]
  else if industry_type = some IndustryType.HEALTHCARE_INDUSTRY then
    [Tool.medical_publications_tool]
  else
    []

/-- The SERP_API_KEY-gated block of get_tools, in isolation. -/
def webPart (env : ToolEnv) : List Tool :=
  if env.SERP_API_KEY ≠ "unset" then
    [Tool.google_search_tool, Tool.google_scholar_tool,
      Tool.google_trends_tool, Tool.google_finance_tool]
  else
    []

/-- The DATA_STORE_ID-gated block of get_tools, in isolation. -/
def dataPart (env : ToolEnv) : List Tool :=
  if env.DATA_STORE_ID ≠ "unset" then [Tool.retrieve_info_tool] else []

/-- The two tools an industry selector can contribute. -/
def industryToolChoices : List Tool :=
  [Tool.yahoo_finance_news_tool, Tool.medical_publications_tool]

/-! ## Retriever adapter (app/rag/retriever.py and the retrieve_info tool) -/

/-- A langchain Document as the retriever returns it. -/
structure Document where
  page_content : String
  metadata : List (String × String)
deriving DecidableEq, Repr

/-- A retriever: its invoke method maps a query to documents; the second
component counts the network requests issued to the managed search backend
by that call (0 for the MagicMock stub, 1 for VertexAISearchRetriever). -/
def Retriever : Type := String → List Document × Nat

/-- A compressor: compress_documents maps (documents, query) to re-ranked
documents, again paired with the number of network requests issued. -/
def Compressor : Type := List Document → String → List Document × Nat

/-- The managed backends the non-test services would consult. -/
structure RagBackends where
  vertexSearch : String → List Document
  vertexRank : List Document → String → List Document

/-- get_retriever from app/rag/retriever.py: when the INTEGRATION_TEST
environment variable is "TRUE" it returns a MagicMock whose invoke is
lambda x: [] (touching no backend); otherwise it returns a
VertexAISearchRetriever whose invoke queries the managed search index. -/
def get_retriever (integration_test : Bool) (b : RagBackends) : Retriever :=
  if integration_test then
    fun _ => ([], 0)
  else
    fun query => (b.vertexSearch query, 1)

/-- get_compressor from app/rag/retriever.py: when INTEGRATION_TEST is
"TRUE" it returns a MagicMock whose compress_documents is
lambda documents, query: []; otherwise a VertexAIRank client (top_n = 5)
that calls the managed ranking service. -/
def get_compressor (integration_test : Bool) (b : RagBackends) : Compressor :=
  if integration_test then
    fun _ _ => ([], 0)
  else
    fun documents query => (b.vertexRank documents query, 1)

/-- Modelled from the spec: format_docs from app/rag/templates.py is not
among the extracted sources; per the spec it renders the ranked sequence
into a single formatted text block, one block per document, so an empty
document list renders to the empty string. -/
def format_docs (docs : List Document) : String :=
  String.join (docs.map (fun d => d.page_content ++ "\n"))

/-- retrieve_info from tools.py: invoke the retriever on the query, re-rank
the retrieved docs with the compressor, format the ranked docs, and return
(formatted_docs, ranked_docs). The Nat component adds up the network
requests made by the two services during the call. -/
def retrieve_info (retriever : Retriever) (compressor : Compressor)
    (query : String) : (String × List Document) × Nat :=
  let retrieved := retriever query
  let ranked := compressor retrieved.1 query
  ((format_docs ranked.1, ranked.1), retrieved.2 + ranked.2)

/-! ## Agent manager construction (app/orchestration/agent.py) -/

/-- The ChatVertexAI client object as configured by get_model_obj. The
numeric sampling parameters are carried as integers scaled by the caller;
only their identity matters to the claims. -/
structure ChatVertexAI where
  model_name : String
  max_retries : Nat
  verbose : Bool
deriving DecidableEq, Repr

/-- How the ChatVertexAI constructor behaves for a given configuration:
it either returns the client, raises google NotFound (model name
unresolved), or raises some other exception. -/
inductive VertexOutcome where
  | ok
  | raiseNotFound (msg : String)
  | raiseOther (msg : String)
deriving DecidableEq, Repr

/-- BaseAgentManager.get_model_obj: call the ChatVertexAI constructor;
re-raise NotFound as NotFound with a "Resource not found." prefix (no
raise-from in the source), and wrap any other exception in a RuntimeError
with the original attached as cause via raise-from. -/
def get_model_obj (model_name : String) (max_retries : Nat) (verbose : Bool)
    (outcome : VertexOutcome) : Except PyError ChatVertexAI :=
  match outcome with
  | .ok => .ok { model_name := model_name, max_retries := max_retries, verbose := verbose }
  | .raiseNotFound msg => .error (.notFound ("Resource not found. " ++ msg))
  | .raiseOther msg =>
      .error (.runtimeError ("Error encountered initalizing model resource. " ++ msg)
        (.exn msg))

/-- The three construction steps of BaseAgentManager.__init__, in the order
the source invokes them: self.tools = self.get_tools(), then
self.model_obj = self.get_model_obj(), then
self.agent_executor = self.set_up(). -/
inductive InitStep where
  | toolsStep
  | modelStep
  | setUpStep
deriving DecidableEq, Repr

/-- A fully constructed agent manager: configuration bound to one tool set,
one model client and one executor of the framework-specific type E. -/
structure Manager (E : Type) where
  tools : List Tool
  model_obj : ChatVertexAI
  agent_executor : E

/-- BaseAgentManager.__init__ after storing the configuration fields:
resolve the tool set, construct the model client, then run the abstract
set_up hook; any exception aborts construction. The returned trace lists
the steps that were invoked, in order. -/
def baseInit {E : Type} (env : ToolEnv) (industry_type : Option String)
    (model_name : String) (max_retries : Nat) (verbose : Bool)
    (outcome : VertexOutcome)
    (set_up : List Tool → ChatVertexAI → Except PyError E) :
    List InitStep × Except PyError (Manager E) :=
  let tools := get_tools env industry_type
  match get_model_obj model_name max_retries verbose outcome with
  | .error e => ([InitStep.toolsStep, InitStep.modelStep], .error e)
  | .ok model_obj =>
      match set_up tools model_obj with
      | .error e =>
          ([InitStep.toolsStep, InitStep.modelStep, InitStep.setUpStep], .error e)
      | .ok ex =>
          ([InitStep.toolsStep, InitStep.modelStep, InitStep.setUpStep],
            .ok { tools := tools, model_obj := model_obj, agent_executor := ex })

/-! ## Streaming (stream_query of both agent manager variants) -/

/-- A streamed chunk from the LangChain AgentExecutor: a Python dict with
string keys and (for the fields the code touches) string values. -/
abbrev Chunk : Type := List (String × String)

/-- Python dict lookup d[k] as an Option (membership test k in d). -/
def dictGet (d : Chunk) (k : String) : Option String :=
  match d with
  | [] => none
  | (k2, v) :: rest => if k2 = k then some v else dictGet rest k

/-- Overwrite every entry holding the key (a Python dict has at most one). -/
def replaceKey : Chunk → String → String → Chunk
  | [], _, _ => []
  | (a, b) :: rest, k, v =>
      if a = k then (k, v) :: replaceKey rest k v
      else (a, b) :: replaceKey rest k v

/-- Python dict assignment d[k] = v: overwrite the value in place when the
key is present, otherwise append the new key at the end (insertion order). -/
def dictSet (d : Chunk) (k v : String) : Chunk :=
  if (dictGet d k).isSome then replaceKey d k v else d ++ [(k, v)]

/-- The langchain message objects variant B's stream inspects:
AIMessageChunk (assistant text delta), AIMessage (complete assistant
message), ToolMessage (tool result), HumanMessage (anything else the graph
may emit, e.g. the echoed user turn). -/
inductive Message where
  | aiMessageChunk (content : String)
  | aiMessage (content : String)
  | toolMessage (content : String)
  | humanMessage (content : String)
deriving DecidableEq, Repr

/-- An event of the underlying executor's stream iteration: either the next
item, or the iteration raising an exception at that point. -/
inductive StreamEvt (α : Type) where
  | item (a : α)
  | raiseE (e : PyError)
deriving DecidableEq, Repr

/-- The except-clause of both stream_query variants:
raise RuntimeError(f"Unexpected error. ...") from e. -/
def wrapUnexpected (e : PyError) : PyError :=
  .runtimeError ("Unexpected error. " ++ e.pyStr) e

/-- The body of variant A's per-chunk handling: if "output" is in the
chunk, set chunk["content"] = chunk["output"] and yield the chunk;
otherwise yield nothing for this chunk. -/
def processChunkA (c : Chunk) : Option Chunk :=
  match dictGet c "output" with
  | some v => some (dictSet c "content" v)
  | none => none

/-- The try/except loop of LangChainPrebuiltAgentManager.stream_query over
the executor's stream: yields the processed chunks in order until the
stream ends, or stops at the first exception, which is re-raised wrapped. -/
def runStreamA : List (StreamEvt Chunk) → List Chunk × Option PyError
  | [] => ([], none)
  | .item c :: rest =>
      let r := runStreamA rest
      (match processChunkA c with
       | some y => (y :: r.1, r.2)
       | none => r)
  | .raiseE e :: _ => ([], some (wrapUnexpected e))

/-- The chat input shape of app/utils/input_types.py: messages plus user
and session identifiers. -/
structure InnerInputChat where
  messages : List Message
  user_id : String
  session_id : String

/-- Python lst[0]: the head of the list, or an IndexError. -/
def pyIndexZero {α : Type} : List α → Except PyError α
  | [] => .error (.indexError "list index out of range")
  | a :: _ => .ok a

/-- The argument shape variant A passes to its executor's stream call:
input is the first message, chat_history the remaining messages. -/
structure StreamInputA where
  input : Message
  chat_history : List Message

/-- LangChainPrebuiltAgentManager.stream_query: inside the try block it
builds the dict from input["messages"][0] and input["messages"][1:] (an
IndexError here is caught by the same except clause) and then iterates the
executor's stream, yielding only chunks that carry an "output" field. -/
def streamQueryA (executor : StreamInputA → List (StreamEvt Chunk))
    (input : InnerInputChat) : List Chunk × Option PyError :=
  match pyIndexZero input.messages with
  | .error e => ([], some (wrapUnexpected e))
  | .ok first =>
      runStreamA (executor { input := first, chat_history := input.messages.tail })

/-- Whether variant B's isinstance check (AIMessageChunk, AIMessage)
accepts the message. -/
def isAssistantMessage : Message → Bool
  | .aiMessageChunk _ => true
  | .aiMessage _ => true
  | _ => false

/-- The diagnostic line variant B prints for a ToolMessage, if any. -/
def toolLogLine : Message → Option String
  | .toolMessage c => some ("ToolMessage received: " ++ c)
  | _ => none

/-- The try/except loop of LangGraphPrebuiltAgentManager.stream_query over
the graph's stream (stream_mode="messages"): each unit is a tuple whose
leading element chunk[0] is the message; AI messages and chunks are
yielded, ToolMessages are printed (collected here as the second component),
anything else is skipped; the first exception is re-raised wrapped. -/
def runStreamB : List (StreamEvt (Message × String)) →
    (List Message × List String) × Option PyError
  | [] => (([], []), none)
  | .item u :: rest =>
      let r := runStreamB rest
      if isAssistantMessage u.1 then
        ((u.1 :: r.1.1, r.1.2), r.2)
      else
        match toolLogLine u.1 with
        | some line => ((r.1.1, line :: r.1.2), r.2)
        | none => r
  | .raiseE e :: _ => (([], []), some (wrapUnexpected e))

/-- The messages variant B's loop yields for an error-free stream, derived
below as a filter over the leading message of each unit. -/
def yieldsB (units : List (Message × String)) : List Message :=
  (units.map Prod.fst).filter isAssistantMessage

/-- The diagnostic lines variant B's loop prints for an error-free stream. -/
def logsB (units : List (Message × String)) : List String :=
  units.filterMap (fun u => toolLogLine u.1)

/-- The chained cause of a Python exception (set by raise-from). -/
def PyError.causeOf : PyError → Option PyError
  | .runtimeError _ c => some c
  | _ => none

/-- Whether a tool is one of the two industry-specific tools. -/
def isIndustryTool : Tool → Bool
  | .yahoo_finance_news_tool => true
  | .medical_publications_tool => true
  | _ => false

/-! ## Theorems -/

theorem get_tools_eq (env : ToolEnv) (industry_type : Option String) :
    get_tools env industry_type =
      industryPart industry_type ++ webPart env ++ dataPart env ++
        [Tool.fallback, Tool.should_continue] := by
  unfold get_tools industryPart webPart dataPart
  split_ifs <;> simp

theorem dictGet_append (d1 d2 : Chunk) (k : String) :
    dictGet (d1 ++ d2) k =
      match dictGet d1 k with
      | some v => some v
      | none => dictGet d2 k := by
  induction d1 with
  | nil => simp [dictGet]
  | cons p rest ih =>
      obtain ⟨a, b⟩ := p
      by_cases h : a = k <;> simp [dictGet, h, ih]

theorem dictGet_replaceKey_self (d : Chunk) (k v : String)
    (h : (dictGet d k).isSome) :
    dictGet (replaceKey d k v) k = some v := by
  induction d with
  | nil => simp [dictGet] at h
  | cons p rest ih =>
      obtain ⟨a, b⟩ := p
      by_cases hak : a = k
      · simp [replaceKey, hak, dictGet]
      · simp [replaceKey, hak, dictGet] at h ⊢
        exact ih h

theorem dictGet_replaceKey_other (d : Chunk) (k v k2 : String) (h : k2 ≠ k) :
    dictGet (replaceKey d k v) k2 = dictGet d k2 := by
  induction d with
  | nil => simp [replaceKey]
  | cons p rest ih =>
      obtain ⟨a, b⟩ := p
      by_cases hak : a = k
      · subst hak
        simp [replaceKey, dictGet, Ne.symm h, ih]
      · simp [replaceKey, hak, dictGet, ih]

theorem dictGet_dictSet_self (d : Chunk) (k v : String) :
    dictGet (dictSet d k v) k = some v := by
  unfold dictSet
  by_cases h : (dictGet d k).isSome
  · simp [h, dictGet_replaceKey_self d k v h]
  · simp [h, dictGet_append]
    simp [Option.isSome] at h
    cases hd : dictGet d k with
    | some v2 => rw [hd] at h; simp at h
    | none => simp [dictGet]

theorem dictGet_dictSet_other (d : Chunk) (k v k2 : String) (h : k2 ≠ k) :
    dictGet (dictSet d k v) k2 = dictGet d k2 := by
  unfold dictSet
  by_cases hs : (dictGet d k).isSome
  · simp [hs, dictGet_replaceKey_other d k v k2 h]
  · simp [hs, dictGet_append]
    cases hd : dictGet d k2 with
    | some v2 => simp
    | none => simp [dictGet, Ne.symm h]

theorem runStreamA_items (chunks : List Chunk) :
    runStreamA (chunks.map StreamEvt.item) =
      (chunks.filterMap processChunkA, none) := by
  induction chunks with
  | nil => rfl
  | cons c rest ih =>
      simp only [List.map_cons, runStreamA, ih, List.filterMap_cons]
      cases processChunkA c <;> simp

theorem runStreamA_raise (pre : List Chunk) (e : PyError)
    (post : List (StreamEvt Chunk)) :
    runStreamA (pre.map StreamEvt.item ++ StreamEvt.raiseE e :: post) =
      (pre.filterMap processChunkA, some (wrapUnexpected e)) := by
  induction pre with
  | nil => rfl
  | cons c rest ih =>
      simp only [List.map_cons, List.cons_append, runStreamA, List.filterMap_cons]
      cases processChunkA c <;> simp [ih]

theorem runStreamB_items (units : List (Message × String)) :
    runStreamB (units.map StreamEvt.item) = ((yieldsB units, logsB units), none) := by
  induction units with
  | nil => rfl
  | cons u rest ih =>
      simp only [List.map_cons, runStreamB, ih]
      by_cases ha : isAssistantMessage u.1
      · simp [ha, yieldsB, logsB, toolLogLine]
        cases hu : u.1 <;> simp_all [isAssistantMessage, toolLogLine]
      · simp only [ha]
        cases hl : toolLogLine u.1 with
        | some line =>
            simp [yieldsB, logsB]
            cases hu : u.1 <;> simp_all [isAssistantMessage, toolLogLine]
        | none =>
            simp [yieldsB, logsB]
            cases hu : u.1 <;> simp_all [isAssistantMessage, toolLogLine]

theorem runStreamB_raise (pre : List (Message × String)) (e : PyError)
    (post : List (StreamEvt (Message × String))) :
    runStreamB (pre.map StreamEvt.item ++ StreamEvt.raiseE e :: post) =
      ((yieldsB pre, logsB pre), some (wrapUnexpected e)) := by
  induction pre with
  | nil => rfl
  | cons u rest ih =>
      simp only [List.map_cons, List.cons_append, runStreamB, ih]
      by_cases ha : isAssistantMessage u.1
      · cases hu : u.1 <;> simp_all [isAssistantMessage, toolLogLine, yieldsB, logsB]
      · cases hu : u.1 <;> simp_all [isAssistantMessage, toolLogLine, yieldsB, logsB]

theorem filterMapA_length (chunks : List Chunk) :
    (chunks.filterMap processChunkA).length =
      chunks.countP (fun c => (dictGet c "output").isSome) := by
  induction chunks with
  | nil => rfl
  | cons c rest ih =>
      rw [List.filterMap_cons, List.countP_cons]
      cases hc : dictGet c "output" <;> simp [processChunkA, hc, ih]

/-- C2: for every query, with the integration-test flag set, retrieve_info
built on get_retriever/get_compressor returns empty formatted text and an
empty document list, and issues zero network requests, whatever documents
the managed backends would have served; the stubs are drop-in replacements
since they inhabit the same Retriever/Compressor types. -/
theorem claim_C2 (b1 b2 : RagBackends) (query : String) :
    retrieve_info (get_retriever true b1) (get_compressor true b2) query =
      (("", []), 0) := by
  rfl

/-- C3: variant A's stream_query yields a chunk if and only if the chunk
carries an "output" field (the yield count equals the count of chunks with
that field), every yielded chunk has its "content" field equal to its
"output" field, and on a three-chunk stream where only the last chunk has
"output" valued "hello", exactly that one chunk is yielded, with content
"hello". -/
theorem claim_C3 (chunks : List Chunk) (c1 c2 c3 : Chunk)
    (h1 : dictGet c1 "output" = none) (h2 : dictGet c2 "output" = none)
    (h3 : dictGet c3 "output" = some "hello") :
    (runStreamA (chunks.map StreamEvt.item)).1.length =
      chunks.countP (fun c => (dictGet c "output").isSome) ∧
    (∀ c ∈ (runStreamA (chunks.map StreamEvt.item)).1,
      (dictGet c "output").isSome ∧ dictGet c "content" = dictGet c "output") ∧
    runStreamA ([c1, c2, c3].map StreamEvt.item) =
      ([dictSet c3 "content" "hello"], none) ∧
    dictGet (dictSet c3 "content" "hello") "content" = some "hello" := by
  refine ⟨?_, ?_, ?_, dictGet_dictSet_self c3 "content" "hello"⟩
  · rw [runStreamA_items]
    exact filterMapA_length chunks
  · rw [runStreamA_items]
    intro c hc
    simp only [List.mem_filterMap] at hc
    obtain ⟨c0, _, hp⟩ := hc
    unfold processChunkA at hp
    cases h0 : dictGet c0 "output" with
    | none => rw [h0] at hp; simp at hp
    | some v =>
        rw [h0] at hp
        simp only [Option.some.injEq] at hp
        subst hp
        have hne : "output" ≠ "content" := by decide
        constructor
        · rw [dictGet_dictSet_other c0 "content" v "output" hne, h0]
          rfl
        · rw [dictGet_dictSet_self, dictGet_dictSet_other c0 "content" v "output" hne, h0]
  · rw [runStreamA_items]
    simp [processChunkA, h1, h2, h3]

theorem claim_C3_witness :
    runStreamA (([[("id", "1")], [], [("output", "hello")]] :
        List Chunk).map StreamEvt.item) =
      ([dictSet [("output", "hello")] "content" "hello"], none) ∧
    dictGet (dictSet ([("output", "hello")] : Chunk) "content" "hello") "content" =
      some "hello" := by
  have h := claim_C3 [] [("id", "1")] [] [("output", "hello")]
    (by decide) (by decide) (by decide)
  exact ⟨h.2.2.1, h.2.2.2⟩

/-- C4: in variant B's stream_query, the yielded sequence is exactly the
leading messages that pass the assistant isinstance check (deltas and
complete assistant messages, yielded verbatim), tool-result messages are
never yielded but produce a diagnostic line, and for a stream of one
assistant delta followed by one tool result exactly the delta is yielded. -/
theorem claim_C4 (units : List (Message × String)) (dc tc meta1 meta2 : String) :
    (runStreamB (units.map StreamEvt.item)).1.1 =
      (units.map Prod.fst).filter isAssistantMessage ∧
    (∀ m ∈ (runStreamB (units.map StreamEvt.item)).1.1,
      isAssistantMessage m = true) ∧
    (runStreamB (units.map StreamEvt.item)).1.2 =
      units.filterMap (fun u => toolLogLine u.1) ∧
    runStreamB ([(Message.aiMessageChunk dc, meta1),
        (Message.toolMessage tc, meta2)].map StreamEvt.item) =
      (([Message.aiMessageChunk dc], ["ToolMessage received: " ++ tc]), none) := by
  refine ⟨?_, ?_, ?_, ?_⟩
  · rw [runStreamB_items]
    rfl
  · rw [runStreamB_items]
    intro m hm
    simp only [yieldsB, List.mem_filter] at hm
    exact hm.2
  · rw [runStreamB_items]
    rfl
  · rw [runStreamB_items]
    simp [yieldsB, logsB, isAssistantMessage, toolLogLine]

/-- C8: in both variants, when the underlying executor's iteration raises
after some prefix of items, the consumer observes exactly the normalized
prefix and then a wrapped RuntimeError whose message is the
"Unexpected error." text and whose chained cause is the original
exception; items after the raise contribute nothing. -/
theorem claim_C8 (pre : List Chunk) (preB : List (Message × String))
    (e : PyError) (post : List (StreamEvt Chunk))
    (postB : List (StreamEvt (Message × String))) :
    runStreamA (pre.map StreamEvt.item ++ StreamEvt.raiseE e :: post) =
      (pre.filterMap processChunkA, some (wrapUnexpected e)) ∧
    runStreamB (preB.map StreamEvt.item ++ StreamEvt.raiseE e :: postB) =
      ((yieldsB preB, logsB preB), some (wrapUnexpected e)) ∧
    wrapUnexpected e =
      PyError.runtimeError ("Unexpected error. " ++ e.pyStr) e ∧
    PyError.causeOf (wrapUnexpected e) = some e := by
  exact ⟨runStreamA_raise pre e post, runStreamB_raise preB e postB, rfl, rfl⟩

/-- C9: calling variant A's stream_query with an empty messages list yields
no items and raises the streaming RuntimeError wrapper around the
IndexError produced by taking messages[0], rather than an empty stream or
a distinct validation error. -/
theorem claim_C9 (executor : StreamInputA → List (StreamEvt Chunk))
    (uid sid : String) :
    streamQueryA executor { messages := [], user_id := uid, session_id := sid } =
      ([], some (PyError.runtimeError "Unexpected error. list index out of range"
        (PyError.indexError "list index out of range"))) := by
  rfl

/-- C10: a unit of variant B's stream whose leading message is neither an
assistant message/delta nor a tool result (for example a human message) is
skipped silently: removing it changes neither the yields nor the diagnostic
log, and the yielded sequence only ever contains messages passing the
assistant check. -/
theorem claim_C10 (pre post : List (Message × String)) (content meta : String)
    (units : List (Message × String)) :
    runStreamB ((pre ++ (Message.humanMessage content, meta) :: post).map
        StreamEvt.item) =
      runStreamB ((pre ++ post).map StreamEvt.item) ∧
    (∀ m ∈ (runStreamB (units.map StreamEvt.item)).1.1,
      isAssistantMessage m = true) := by
  constructor
  · rw [runStreamB_items, runStreamB_items]
    simp [yieldsB, logsB, isAssistantMessage, toolLogLine]
  · rw [runStreamB_items]
    intro m hm
    simp only [yieldsB, List.mem_filter] at hm
    exact hm.2

/-- C1 counterexample: with a model-not-found outcome, construction does
raise the NotFound failure, yet the trace of BaseAgentManager.__init__
already contains the tools step — the ToolSet is resolved before the model
client is attempted, so "no ToolSet is resolved" is false. -/
theorem claim_C1_counterexample :
    (baseInit { SERP_API_KEY := "unset", DATA_STORE_ID := "unset" } none
        "gemini-oops" 6 true (VertexOutcome.raiseNotFound "model gemini-oops")
        (fun _ _ => Except.ok ())).2 =
      Except.error (PyError.notFound "Resource not found. model gemini-oops") ∧
    InitStep.toolsStep ∈
      (baseInit { SERP_API_KEY := "unset", DATA_STORE_ID := "unset" } none
        "gemini-oops" 6 true (VertexOutcome.raiseNotFound "model gemini-oops")
        (fun _ _ => Except.ok ())).1 := by
  constructor
  · rfl
  · have h : (baseInit { SERP_API_KEY := "unset", DATA_STORE_ID := "unset" } none
        "gemini-oops" 6 true (VertexOutcome.raiseNotFound "model gemini-oops")
        (fun _ _ => Except.ok ())).1 = [InitStep.toolsStep, InitStep.modelStep] := rfl
    rw [h]
    decide

/-- C1 (amended): when the chat-model constructor fails with model-not-found,
construction raises the ResourceNotFound-kind failure before the executor is
built — set_up() is never invoked (the result does not depend on the set_up
hook at all) — but after the ToolSet has been resolved: the invocation trace
is exactly [toolsStep, modelStep]. -/
theorem claim_C1 {E : Type} (env : ToolEnv) (industry_type : Option String)
    (model_name : String) (max_retries : Nat) (verbose : Bool) (msg : String)
    (set_up set_up2 : List Tool → ChatVertexAI → Except PyError E) :
    baseInit env industry_type model_name max_retries verbose
        (VertexOutcome.raiseNotFound msg) set_up =
      ([InitStep.toolsStep, InitStep.modelStep],
        Except.error (PyError.notFound ("Resource not found. " ++ msg))) ∧
    InitStep.setUpStep ∉
      (baseInit env industry_type model_name max_retries verbose
        (VertexOutcome.raiseNotFound msg) set_up).1 ∧
    baseInit env industry_type model_name max_retries verbose
        (VertexOutcome.raiseNotFound msg) set_up =
      baseInit env industry_type model_name max_retries verbose
        (VertexOutcome.raiseNotFound msg) set_up2 := by
  refine ⟨rfl, ?_, rfl⟩
  have h : (baseInit env industry_type model_name max_retries verbose
      (VertexOutcome.raiseNotFound msg) set_up).1 =
      [InitStep.toolsStep, InitStep.modelStep] := rfl
  rw [h]
  decide

/-- C5: for every industry selector and every environment configuration,
the tool list ends with the fallback tool immediately followed by the
stop-reasoning tool, so both are present, they are the last two elements,
and fallback precedes should_continue. -/
theorem claim_C5 (env : ToolEnv) (industry_type : Option String) :
    Tool.fallback ∈ get_tools env industry_type ∧
    Tool.should_continue ∈ get_tools env industry_type ∧
    ∃ pre, get_tools env industry_type =
      pre ++ [Tool.fallback, Tool.should_continue] := by
  refine ⟨?_, ?_,
    ⟨industryPart industry_type ++ webPart env ++ dataPart env, ?_⟩⟩
  · rw [get_tools_eq]; simp
  · rw [get_tools_eq]; simp
  · rw [get_tools_eq]

/-- C6: when SERP_API_KEY is the sentinel "unset", none of the four
Serper-backed web tools appear in get_tools for any industry selector;
for any other key value all four appear as one contiguous block in the
order search, scholar, trends, finance. -/
theorem claim_C6 (env : ToolEnv) (industry_type : Option String) :
    (env.SERP_API_KEY = "unset" →
      Tool.google_search_tool ∉ get_tools env industry_type ∧
      Tool.google_scholar_tool ∉ get_tools env industry_type ∧
      Tool.google_trends_tool ∉ get_tools env industry_type ∧
      Tool.google_finance_tool ∉ get_tools env industry_type) ∧
    (env.SERP_API_KEY ≠ "unset" →
      ∃ pre post, get_tools env industry_type =
        pre ++ [Tool.google_search_tool, Tool.google_scholar_tool,
          Tool.google_trends_tool, Tool.google_finance_tool] ++ post) := by
  constructor
  · intro h
    have hw : webPart env = [] := by simp [webPart, h]
    refine ⟨?_, ?_, ?_, ?_⟩ <;>
      · rw [get_tools_eq, hw]
        unfold industryPart dataPart
        split_ifs <;> simp
  · intro h
    have hw : webPart env = [Tool.google_search_tool, Tool.google_scholar_tool,
        Tool.google_trends_tool, Tool.google_finance_tool] := by
      simp [webPart, h]
    exact ⟨industryPart industry_type,
      dataPart env ++ [Tool.fallback, Tool.should_continue],
      by rw [get_tools_eq, hw]; simp [List.append_assoc]⟩

theorem claim_C6_witness :
    Tool.google_search_tool ∉
      get_tools { SERP_API_KEY := "unset", DATA_STORE_ID := "unset" } none ∧
    ∃ pre post,
      get_tools { SERP_API_KEY := "key123", DATA_STORE_ID := "unset" } none =
        pre ++ [Tool.google_search_tool, Tool.google_scholar_tool,
          Tool.google_trends_tool, Tool.google_finance_tool] ++ post :=
  ⟨((claim_C6 { SERP_API_KEY := "unset", DATA_STORE_ID := "unset" } none).1 rfl).1,
    (claim_C6 { SERP_API_KEY := "key123", DATA_STORE_ID := "unset" } none).2
      (by decide)⟩

/-- C7: get_tools adds at most one industry-specific tool, by exact match:
the finance selector contributes exactly the Yahoo finance tool, the
healthcare selector exactly the medical-publications tool, the reserved
retail selector contributes nothing (same result as no selector), and any
selector matching neither finance nor healthcare yields exactly the
general-purpose list — conditionally included web/retrieval tools followed
by fallback and should_continue. -/
theorem claim_C7 (env : ToolEnv) (industry_type : Option String) :
    (get_tools env industry_type).countP isIndustryTool ≤ 1 ∧
    (industry_type = some IndustryType.FINANCE_INDUSTRY →
      (get_tools env industry_type).countP isIndustryTool = 1 ∧
      Tool.yahoo_finance_news_tool ∈ get_tools env industry_type) ∧
    (industry_type = some IndustryType.HEALTHCARE_INDUSTRY →
      (get_tools env industry_type).countP isIndustryTool = 1 ∧
      Tool.medical_publications_tool ∈ get_tools env industry_type) ∧
    get_tools env (some IndustryType.RETAIL_INDUSTRY) = get_tools env none ∧
    (industry_type ≠ some IndustryType.FINANCE_INDUSTRY →
      industry_type ≠ some IndustryType.HEALTHCARE_INDUSTRY →
      get_tools env industry_type =
        webPart env ++ dataPart env ++ [Tool.fallback, Tool.should_continue]) := by
  have hw : (webPart env).countP isIndustryTool = 0 := by
    unfold webPart; split_ifs <;> rfl
  have hd : (dataPart env).countP isIndustryTool = 0 := by
    unfold dataPart; split_ifs <;> rfl
  refine ⟨?_, ?_, ?_, ?_, ?_⟩
  · rw [get_tools_eq]
    simp only [List.countP_append, hw, hd]
    unfold industryPart
    split_ifs <;> simp [isIndustryTool, List.countP_cons]
  · intro h
    constructor
    · rw [get_tools_eq]
      simp only [List.countP_append, hw, hd]
      unfold industryPart
      rw [if_pos h]
      rfl
    · rw [get_tools_eq]
      unfold industryPart
      rw [if_pos h]
      simp
  · intro h
    constructor
    · rw [get_tools_eq]
      simp only [List.countP_append, hw, hd]
      unfold industryPart
      have hne : industry_type ≠ some IndustryType.FINANCE_INDUSTRY := by
        rw [h]; decide
      rw [if_neg hne, if_pos h]
      rfl
    · rw [get_tools_eq]
      unfold industryPart
      have hne : industry_type ≠ some IndustryType.FINANCE_INDUSTRY := by
        rw [h]; decide
      rw [if_neg hne, if_pos h]
      simp
  · rw [get_tools_eq, get_tools_eq]
    have h : industryPart (some IndustryType.RETAIL_INDUSTRY) =
        industryPart none := by decide
    rw [h]
  · intro h1 h2
    rw [get_tools_eq]
    have h : industryPart industry_type = [] := by
      unfold industryPart
      rw [if_neg h1, if_neg h2]
    rw [h]
    simp [List.append_assoc]

theorem claim_C7_witness :
    (get_tools { SERP_API_KEY := "unset", DATA_STORE_ID := "unset" }
        (some IndustryType.FINANCE_INDUSTRY)).countP isIndustryTool = 1 ∧
    get_tools { SERP_API_KEY := "unset", DATA_STORE_ID := "unset" }
        (some "agriculture") =
      webPart { SERP_API_KEY := "unset", DATA_STORE_ID := "unset" } ++
        dataPart { SERP_API_KEY := "unset", DATA_STORE_ID := "unset" } ++
        [Tool.fallback, Tool.should_continue] :=
  ⟨((claim_C7 { SERP_API_KEY := "unset", DATA_STORE_ID := "unset" }
      (some IndustryType.FINANCE_INDUSTRY)).2.1 rfl).1,
    (claim_C7 { SERP_API_KEY := "unset", DATA_STORE_ID := "unset" }
      (some "agriculture")).2.2.2.2 (by decide) (by decide)⟩
